import Mathlib

/-!
Verification of the Agama web network client (`src/web/src/client/network/index.js`).

The JavaScript code is shallowly embedded: JS values are modelled by the
inductive `JVal`, JS objects by association lists `List (String × JVal)`
(first occurrence of a key wins on lookup, mirroring the uniqueness of keys
in JS objects), JS strings by `List Char`, and the HTTP transport by a
response function together with an explicit trace of the calls each
operation issues, in order.  Asynchronous awaits in the source are strictly
sequential, so sequencing the calls in a list is faithful.

The address codec (`ipPrefixFor` / `formatIp`, imported by the source from
`./utils`) and the domain factories (imported from `./model`) are not part
of the sources; they are modelled from the specification where needed and
marked as such in their doc comments.
-/

set_option autoImplicit false

namespace Agama

/-- Shallow model of a JavaScript value as used by the network client:
`undefined` stands for JS `undefined` (and for the not-a-number results the
client never inspects), numbers are the naturals that occur on this wire
(prefix lengths, route metrics, signal strength). -/
inductive JVal where
  | undefined : JVal
  | bool (b : Bool) : JVal
  | num (n : Nat) : JVal
  | str (s : List Char) : JVal
  | arr (xs : List JVal) : JVal
  | obj (fs : List (String × JVal)) : JVal

/-- JS truthiness: `undefined`, `false`, `0` and `""` are falsy; every
object and array (even empty ones) is truthy. -/
def jTruthy : JVal → Bool
  | .undefined => false
  | .bool b => b
  | .num n => n != 0
  | .str s => !s.isEmpty
  | .arr _ => true
  | .obj _ => true

/-- Property access `o.k`: the value of the first field named `k`. -/
def getF (fs : List (String × JVal)) (k : String) : Option JVal :=
  match fs with
  | [] => none
  | (k', v) :: rest => if k' = k then some v else getF rest k

/-- `o.k` with JS semantics: a missing field reads as `undefined`. -/
def jGet (fs : List (String × JVal)) (k : String) : JVal :=
  (getF fs k).getD .undefined

/-- Object spread override `{...fs, k: v}`: if `k` is already a key its
value is replaced in place (every occurrence, so lookup agrees with JS
key uniqueness), otherwise the field is appended at the end. -/
def setField (fs : List (String × JVal)) (k : String) (v : JVal) : List (String × JVal) :=
  if fs.any (fun p => p.1 = k) then
    fs.map (fun p => if p.1 = k then (k, v) else p)
  else
    fs ++ [(k, v)]

/-- Rest-destructuring `{ k, ...rest } = fs`: drop the field `k`. -/
def removeField (fs : List (String × JVal)) (k : String) : List (String × JVal) :=
  fs.filter (fun p => p.1 != k)

/-- Object spread `{...base, ...extra}`: fields of `extra` override or
extend `base`, in order. -/
def spreadObj (base extra : List (String × JVal)) : List (String × JVal) :=
  extra.foldl (fun acc p => setField acc p.1 p.2) base

/-- Strict equality of a JS value with a string literal (`v === "s"`). -/
def isStr (v : JVal) (s : List Char) : Bool :=
  match v with
  | .str t => t = s
  | _ => false

/-- JS `String.prototype.split` with a one-character separator: always
returns at least one (possibly empty) component. -/
def splitOnChar (sep : Char) : List Char → List (List Char)
  | [] => [[]]
  | c :: rest =>
    match splitOnChar sep rest with
    | [] => [[]]
    | h :: t => if c = sep then [] :: h :: t else (c :: h) :: t

/-- Array destructuring `[a, b] = parts`: the first component and, when
present, the second (`undefined` otherwise, modelled as `none`). -/
def destructure2 : List (List Char) → List Char × Option (List Char)
  | [] => ([], none)
  | [ip] => (ip, none)
  | ip :: m :: _ => (ip, some m)

/-- Decimal digit to character. -/
def digitChar : Nat → Char
  | 0 => '0' | 1 => '1' | 2 => '2' | 3 => '3' | 4 => '4'
  | 5 => '5' | 6 => '6' | 7 => '7' | 8 => '8' | 9 => '9'
  | _ => '0'

/-- Fuel-driven decimal printer (most significant digit first). -/
def natReprAux : Nat → Nat → List Char
  | 0, _ => []
  | _ + 1, 0 => []
  | fuel + 1, n + 1 => natReprAux fuel ((n + 1) / 10) ++ [digitChar ((n + 1) % 10)]

/-- Decimal representation of a natural number, as JS stringification
produces for the integers on this wire. -/
def natRepr (n : Nat) : List Char :=
  if n = 0 then ['0'] else natReprAux n n

/-- Numeric value of a decimal digit character. -/
def digitVal (c : Char) : Nat := c.toNat - 48

/-- Value of a string of decimal digits (leading-zeros tolerant). -/
def digitsToNat (s : List Char) : Nat :=
  s.foldl (fun a c => a * 10 + digitVal c) 0

/-- A non-empty all-digit string: an integer literal. -/
def isNatLit (s : List Char) : Bool :=
  !s.isEmpty && s.all (fun c => c.isDigit)

/-- The 32-bit value of the contiguous netmask with `k` leading one bits. -/
def mask32 (k : Nat) : Nat := 2 ^ 32 - 2 ^ (32 - k)

/-- One dotted-quad component: a decimal literal in `[0, 255]`. -/
def parseOctet (s : List Char) : Option Nat :=
  if isNatLit s && digitsToNat s ≤ 255 then some (digitsToNat s) else none

/-- Modelled from the spec: the dotted-netmask half of the address codec
(`./utils`, not under the provided sources).  A dotted quad is converted
to the count of its leading one bits; a value that is not of the form
"k leading ones then zeros" is non-contiguous and fails (`none`) rather
than being truncated to a best guess. -/
def netmaskBits (s : List Char) : Option Nat :=
  match splitOnChar '.' s with
  | [p1, p2, p3, p4] =>
    match parseOctet p1, parseOctet p2, parseOctet p3, parseOctet p4 with
    | some a, some b, some c, some d =>
      let v := ((a * 256 + b) * 256 + c) * 256 + d
      (List.range 33).find? (fun k => v == mask32 k)
    | _, _, _, _ => none
  | _ => none

/-- Modelled from the spec: `ipPrefixFor` from `./utils` (not under the
provided sources).  Per spec §4.1, an integer literal in range is the CIDR
length directly (the codec sees no address family, so the inclusive IPv6
bound 128 is used); otherwise the string is treated as a dotted netmask,
and any malformed or non-contiguous input fails loudly (`none`). -/
def ipPrefixFor (s : List Char) : Option Nat :=
  if isNatLit s then
    let n := digitsToNat s
    if n ≤ 128 then some n else none
  else
    netmaskBits s

/-- Structured address produced by the codec; `pfx` models the source's
`prefix` field, absent when the wire string had no `/` part. -/
structure IPAddr where
  address : List Char
  pfx : Option Nat
deriving DecidableEq

/-- Modelled from the spec: `formatIp` from `./utils` (not under the
provided sources) — `{address, prefix}` prints as `"address/prefix"`,
a bare `{address}` prints as `"address"`. -/
def formatIp (a : IPAddr) : List Char :=
  match a.pfx with
  | some p => a.address ++ '/' :: natRepr p
  | none => a.address

/-- The codec's parse direction, as the source performs it on each wire
address string (split at `/`, then `ipPrefixFor` on the part after it);
`none` is the loud failure demanded by spec §7 for malformed input. -/
def parseIp (s : List Char) : Option IPAddr :=
  match destructure2 (splitOnChar '/' s) with
  | (ip, none) => some ⟨ip, none⟩
  | (ip, some mask) => (ipPrefixFor mask).map (fun p => ⟨ip, some p⟩)

example : parseIp ("10.0.0.0/255.255.255.0".data) = some ⟨"10.0.0.0".data, some 24⟩ := by decide
example : parseIp ("10.0.0.0/255.0.255.0".data) = none := by decide
example : natRepr 128 = ['1', '2', '8'] := by decide
example : (parseIp ("192.168.1.10/24".data)).map formatIp = some ("192.168.1.10/24".data) := by decide

/-- The value `ipPrefixFor(netmask)` takes inside a JS object field: the
source stores the codec's result without branching on failure, so a failed
or `undefined` input is modelled as the non-address value `undefined`
(`ipPrefixFor` itself is not under the provided sources, see its comment). -/
def pfJ : Option (List Char) → JVal
  | none => .undefined
  | some s =>
    match ipPrefixFor s with
    | some n => .num n
    | none => .undefined

/-- The per-element address translation of `fromApiConnection` /
`fromApiDevice`: split the wire string at `/`; with a netmask part build
`{address, prefix}`, without one build `{address}` only.  A non-string
element would throw in JS (`.split` on a non-string) and is outside the
wire contract; it is left unchanged here. -/
def parseAddrJ : JVal → JVal
  | .str s =>
    let parts := destructure2 (splitOnChar '/' s)
    match parts.2 with
    | some mask => .obj [("address", .str parts.1), ("prefix", pfJ (some mask))]
    | none => .obj [("address", .str parts.1)]
  | v => v

/-- JS `x || []` on an optional field: a missing or falsy value becomes the
empty array, a truthy value is kept verbatim. -/
def jsOrEmptyArr (v : Option JVal) : JVal :=
  match v with
  | some w => if jTruthy w then w else .arr []
  | none => .arr []

/-- The elements of `(o.k || [])` when it is mapped over: the wire contract
makes the field an array when present (a truthy non-array would throw on
`.map` in JS and is outside the contract, read as empty here). -/
def jsArrElems (v : Option JVal) : List JVal :=
  match v with
  | some (.arr xs) => xs
  | _ => []

/-- The fields of a JS value that the wire contract makes an object. -/
def jObjFields : JVal → List (String × JVal)
  | .obj fs => fs
  | _ => []

/-- `NetworkClient.fromApiConnection` (source lines 171–183): translate a
wire connection by structuring each address string and defaulting
`nameservers` to `[]`, spreading both over the original object. -/
def fromApiConnection (connection : List (String × JVal)) : List (String × JVal) :=
  let nameservers := jsOrEmptyArr (getF connection "nameservers")
  let addresses := JVal.arr ((jsArrElems (getF connection "addresses")).map parseAddrJ)
  setField (setField connection "addresses" addresses) "nameservers" nameservers

/-- Modelled from the spec: the `ConnectionTypes` taxonomy of `./model`
(not under the provided sources), restricted to the five types the
classifier in the sources can produce (§4.3). -/
inductive ConnectionTypeT where
  | wifi | bond | vlan | loopback | ethernet
deriving DecidableEq

/-- `NetworkClient.connectionType` (source lines 185–192): cascaded
truthiness checks on the marker fields, then the loopback interface name,
then the ethernet default.  Total by construction. -/
def connectionType (connection : List (String × JVal)) : ConnectionTypeT :=
  if jTruthy (jGet connection "wireless") then .wifi
  else if jTruthy (jGet connection "bond") then .bond
  else if jTruthy (jGet connection "vlan") then .vlan
  else if isStr (jGet connection "iface") ("lo".data) then .loopback
  else .ethernet

/-- Modelled from the spec: `formatIp` applied to a JS object value, as
`toApiConnection` maps it over the addresses; only a numeric `prefix`
field yields the `"address/prefix"` form. -/
def formatIpJ : JVal → JVal
  | .obj fs =>
    let addr := match getF fs "address" with
      | some (.str s) => s
      | _ => []
    match getF fs "prefix" with
    | some (.num n) => .str (addr ++ '/' :: natRepr n)
    | _ => .str addr
  | v => v

/-- JS `String.prototype.trim`. -/
def jsTrim (s : List Char) : List Char :=
  ((s.dropWhile Char.isWhitespace).reverse.dropWhile Char.isWhitespace).reverse

/-- The conditional re-adding of a gateway in `toApiConnection`:
`if (g?.trim() !== "") conn.g = g` — an absent gateway compares
`undefined !== ""`, so the field is added back with value `undefined`;
a string is added back unless it trims to the empty string.  (A non-string
non-absent value would throw on `.trim()` in JS, outside the contract;
it is added back verbatim here.) -/
def addGateway (base : List (String × JVal)) (key : String) (g : Option JVal) :
    List (String × JVal) :=
  match g with
  | none => setField base key .undefined
  | some (.str s) => if jsTrim s = [] then base else setField base key (.str s)
  | some v => setField base key v

/-- `NetworkClient.toApiConnection` (source lines 194–202): format the
addresses back to wire strings, strip `iface`/`gateway4`/`gateway6`,
conditionally re-add the gateways, and store `iface` as `interface`. -/
def toApiConnection (connection : List (String × JVal)) : List (String × JVal) :=
  let addresses := JVal.arr ((jsArrElems (getF connection "addresses")).map formatIpJ)
  let ifaceV := jGet connection "iface"
  let conn := removeField (removeField (removeField connection "iface") "gateway4") "gateway6"
  let conn := addGateway conn "gateway4" (getF connection "gateway4")
  let conn := addGateway conn "gateway6" (getF connection "gateway6")
  setField (setField conn "addresses" addresses) "interface" ifaceV

/-- The destination field of a wire route record as a string, which the
wire contract makes it (a non-string would throw on `.split` in JS and is
read as empty here). -/
def routeDestStr (route : List (String × JVal)) : List Char :=
  match getF route "destination" with
  | some (.str d) => d
  | _ => []

/-- The structured destination the `routes4` branch builds: `{address,
prefix}` unconditionally — `ipPrefixFor` is applied even when the netmask
part is absent. -/
def route4Dest (d : List Char) : JVal :=
  let parts := destructure2 (splitOnChar '/' d)
  .obj [("address", .str parts.1), ("prefix", pfJ parts.2)]

/-- The structured destination the `routes6` branch builds: the `prefix`
field is only attached when the destination string had a netmask part. -/
def route6Dest (d : List Char) : JVal :=
  let parts := destructure2 (splitOnChar '/' d)
  match parts.2 with
  | some mask => .obj [("address", .str parts.1), ("prefix", pfJ (some mask))]
  | none => .obj [("address", .str parts.1)]

/-- The `routes4` branch of `fromApiDevice` (source lines 129–134): split
the destination and spread the unconditional `{address, prefix}` object
over the route record. -/
def mapRoute4 (route : List (String × JVal)) : List (String × JVal) :=
  setField route "destination" (route4Dest (routeDestStr route))

/-- The `routes6` branch of `fromApiDevice` (source lines 136–141): like
`mapRoute4`, but via the conditional destination object. -/
def mapRoute6 (route : List (String × JVal)) : List (String × JVal) :=
  setField route "destination" (route6Dest (routeDestStr route))

/-- `NetworkClient.fromApiDevice` (source lines 126–153): pull
`nameservers` out of `ipConfig`, decompose both route collections and the
addresses, and spread `ipConfig` and the translated collections over the
device object. -/
def fromApiDevice (device : List (String × JVal)) : List (String × JVal) :=
  let ipConfig := jObjFields (jGet device "ipConfig")
  let nameservers := jsOrEmptyArr (getF ipConfig "nameservers")
  let dev := removeField device "ipConfig"
  let routes4 := (jsArrElems (getF ipConfig "routes4")).map (fun r => JVal.obj (mapRoute4 (jObjFields r)))
  let routes6 := (jsArrElems (getF ipConfig "routes6")).map (fun r => JVal.obj (mapRoute6 (jObjFields r)))
  let addresses := (jsArrElems (getF ipConfig "addresses")).map parseAddrJ
  let base := spreadObj dev ipConfig
  let base := setField base "addresses" (.arr addresses)
  let base := setField base "nameservers" nameservers
  let base := setField base "routes4" (.arr routes4)
  setField base "routes6" (.arr routes6)

/-- HTTP method of a transport call. -/
inductive Method where
  | get | post | put | delete
deriving DecidableEq

/-- Transport response: the ok/fail indicator and the decoded JSON body
(`response.json()` is only consulted on ok responses here). -/
structure HttpResponse where
  ok : Bool
  body : JVal

/-- The transport collaborator (`HTTPClient`): a response for every
method/path/body triple.  The network client under study is sequential, so
a deterministic response function is a faithful model of one run. -/
structure HttpClient where
  respond : Method → String → JVal → HttpResponse

/-- Result of one gateway operation: its value, the ordered trace of
transport calls it issued, and the `console.error` messages it logged. -/
structure OpResult (α : Type) where
  val : α
  calls : List (Method × String)
  logs : List String

/-- The commit path, `"/network/system/apply"`. -/
def applyPath : String := "/network/system/apply"

/-- `NetworkClient.apply` (source lines 242–244): a single PUT of an empty
object to the apply path. -/
def applyOp (c : HttpClient) : OpResult HttpResponse :=
  ⟨c.respond .put applyPath (.obj []), [(.put, applyPath)], []⟩

/-- Stringification of a JS value inside a template literal, as used to
build per-connection paths (only string ids occur on this wire). -/
def jTemplStr : JVal → String
  | .str s => String.mk s
  | .num n => String.mk (natRepr n)
  | .undefined => "undefined"
  | _ => "object"

/-- `NetworkClient.devices` (source lines 110–118): GET the device list;
on a non-ok response return the empty list — without logging — otherwise
translate every device.  (A non-array ok body would throw in JS, outside
the wire contract; it reads as empty here.) -/
def devices (c : HttpClient) : OpResult (List (List (String × JVal))) :=
  let r := c.respond .get "/network/devices" .undefined
  if r.ok then
    ⟨(jsArrElems (some r.body)).map (fun d => fromApiDevice (jObjFields d)), [(.get, "/network/devices")], []⟩
  else
    ⟨[], [(.get, "/network/devices")], []⟩

/-- `NetworkClient.connections` (source lines 160–169): GET the connection
list; on a non-ok response log and return the empty list, otherwise
translate every connection. -/
def connections (c : HttpClient) : OpResult (List (List (String × JVal))) :=
  let r := c.respond .get "/network/connections" .undefined
  if r.ok then
    ⟨(jsArrElems (some r.body)).map (fun x => fromApiConnection (jObjFields x)), [(.get, "/network/connections")], []⟩
  else
    ⟨[], [(.get, "/network/connections")], ["Failed to get list of connections"]⟩

/-- Modelled from the spec: `createAccessPoint` (`./model`, not under the
provided sources) — the normalized access-point record of §3. -/
def createAccessPoint (ssid hwAddress strength security : JVal) : List (String × JVal) :=
  [("ssid", ssid), ("hwAddress", hwAddress), ("strength", strength), ("security", security)]

/-- `NetworkClient.accessPoints` (source lines 209–225): GET the wifi
list; on a non-ok response log and return the empty list, otherwise
normalize every access point.  `sff` is the external
`securityFromFlags` decoder (§4.4), a contract this core only consumes,
so the operation is parametric in it. -/
def accessPoints (sff : JVal → JVal → JVal → JVal) (c : HttpClient) :
    OpResult (List (List (String × JVal))) :=
  let r := c.respond .get "/network/wifi" .undefined
  if r.ok then
    ⟨(jsArrElems (some r.body)).map (fun apv =>
      let ap := jObjFields apv
      createAccessPoint (jGet ap "ssid") (jGet ap "hw_address") (jGet ap "strength")
        (sff (jGet ap "flags") (jGet ap "wpa_flags") (jGet ap "rsn_flags"))),
     [(.get, "/network/wifi")], []⟩
  else
    ⟨[], [(.get, "/network/wifi")], ["Failed to get list of APs"]⟩

/-- `NetworkClient.settings` (source lines 346–353): GET the settings; on
a non-ok response log and return the empty object. -/
def settings (c : HttpClient) : OpResult JVal :=
  let r := c.respond .get "/network/settings" .undefined
  if r.ok then
    ⟨r.body, [(.get, "/network/settings")], []⟩
  else
    ⟨.obj [], [(.get, "/network/settings")], ["Failed to get settings"]⟩

/-- `NetworkClient.addConnection` (source lines 278–286): POST the wire
form of the connection; on a non-ok response log and return null (`none`),
otherwise the response body.  No apply call is issued. -/
def addConnection (c : HttpClient) (connection : List (String × JVal)) :
    OpResult (Option JVal) :=
  let api := toApiConnection connection
  let r := c.respond .post "/network/connections" (.obj api)
  if r.ok then
    ⟨some r.body, [(.post, "/network/connections")], []⟩
  else
    ⟨none, [(.post, "/network/connections")], ["Failed to post list of connections"]⟩

/-- `NetworkClient.connectTo` (source lines 232–237): add the connection,
then apply, and return the added connection. -/
def connectTo (c : HttpClient) (connection : List (String × JVal)) :
    OpResult (Option JVal) :=
  let a := addConnection c connection
  let ap := applyOp c
  ⟨a.val, a.calls ++ ap.calls, a.logs ++ ap.logs⟩

/-- The synthesized wireless options object of `addAndConnectTo` (source
lines 252–258): `{ssid, mode: "infrastructure"}` extended by each truthy
option. -/
def mkWireless (ssid : List Char) (options : List (String × JVal)) : List (String × JVal) :=
  let w := [("ssid", JVal.str ssid), ("mode", JVal.str ("infrastructure".data))]
  let w := if jTruthy (jGet options "security") then setField w "security" (jGet options "security") else w
  let w := if jTruthy (jGet options "password") then setField w "password" (jGet options "password") else w
  let w := if jTruthy (jGet options "hidden") then setField w "hidden" (jGet options "hidden") else w
  if jTruthy (jGet options "mode") then setField w "mode" (jGet options "mode") else w

/-- Modelled from the spec: `createConnection` (`./model`, not under the
provided sources).  §4.5 says the factory applies defaults for omitted
optional fields; the defaults themselves are unspecified there, so only
the identity on the given fields is modelled — no claim here depends on
the defaults. -/
def createConnection (fields : List (String × JVal)) : List (String × JVal) :=
  fields

/-- `NetworkClient.addAndConnectTo` (source lines 252–267): synthesize a
wireless connection for the ssid and delegate to `connectTo`. -/
def addAndConnectTo (c : HttpClient) (ssid : List Char) (options : List (String × JVal)) :
    OpResult (Option JVal) :=
  let wireless := mkWireless ssid options
  let connection := createConnection [("id", .str ssid), ("wireless", .obj wireless)]
  connectTo c connection

/-- The path `updateConnection` PUTs to: built from the id of the wire
form of the connection. -/
def updatePath (connection : List (String × JVal)) : String :=
  "/network/connections/" ++ jTemplStr (jGet (toApiConnection connection) "id")

/-- `NetworkClient.updateConnection` (source lines 309–313): PUT the wire
form, then apply; the returned boolean is the ok-status of the apply
response — the PUT's own response is awaited but never inspected. -/
def updateConnection (c : HttpClient) (connection : List (String × JVal)) : OpResult Bool :=
  let api := toApiConnection connection
  let _r1 := c.respond .put (updatePath connection) (.obj api)
  let r2 := c.respond .put applyPath (.obj [])
  ⟨r2.ok, [(.put, updatePath connection), (.put, applyPath)], []⟩

/-- `NetworkClient.deleteConnection` (source lines 324–327): DELETE the
connection's path, then apply; the returned boolean is the ok-status of
the apply response — the DELETE's own response is awaited but never
inspected. -/
def deleteConnection (c : HttpClient) (id : String) : OpResult Bool :=
  let _r1 := c.respond .delete ("/network/connections/" ++ id) .undefined
  let r2 := c.respond .put applyPath (.obj [])
  ⟨r2.ok, [(.delete, "/network/connections/" ++ id), (.put, applyPath)], []⟩

/-! ### Helper lemmas -/

theorem splitOnChar_ne_nil (sep : Char) (s : List Char) : splitOnChar sep s ≠ [] := by
  cases s with
  | nil => simp [splitOnChar]
  | cons c rest =>
    simp only [splitOnChar]
    cases hr : splitOnChar sep rest with
    | nil => simp
    | cons h t => by_cases hc : c = sep <;> simp [hc]

theorem splitOnChar_not_mem (sep : Char) (s : List Char) (h : sep ∉ s) :
    splitOnChar sep s = [s] := by
  induction s with
  | nil => rfl
  | cons c rest ih =>
    have hc : c ≠ sep := fun he => h (he ▸ List.mem_cons_self c rest)
    have hr : sep ∉ rest := fun hm => h (List.mem_cons_of_mem c hm)
    simp only [splitOnChar, ih hr]
    simp [hc]

theorem splitOnChar_append (sep : Char) (a b : List Char) (h : sep ∉ a) :
    splitOnChar sep (a ++ sep :: b) = a :: splitOnChar sep b := by
  induction a with
  | nil =>
    simp only [List.nil_append, splitOnChar]
    cases hb : splitOnChar sep b with
    | nil => exact absurd hb (splitOnChar_ne_nil sep b)
    | cons hd tl => simp
  | cons c a' ih =>
    have hc : c ≠ sep := fun he => h (he ▸ List.mem_cons_self c a')
    have ha : sep ∉ a' := fun hm => h (List.mem_cons_of_mem c hm)
    simp only [List.cons_append, splitOnChar, List.append_eq]
    rw [ih ha]
    simp [hc]

theorem digitsToNat_append (l : List Char) (c : Char) :
    digitsToNat (l ++ [c]) = digitsToNat l * 10 + digitVal c := by
  simp [digitsToNat, List.foldl_append]

theorem digitChar_isDigit (d : Nat) : (digitChar d).isDigit = true := by
  unfold digitChar
  split <;> decide

theorem digitVal_digitChar (d : Nat) (h : d < 10) : digitVal (digitChar d) = d := by
  interval_cases d <;> decide

theorem digitsToNat_natReprAux (fuel : Nat) :
    ∀ n, n ≤ fuel → digitsToNat (natReprAux fuel n) = n := by
  induction fuel with
  | zero =>
    intro n h
    interval_cases n
    rfl
  | succ f ih =>
    intro n h
    match n with
    | 0 => rfl
    | m + 1 =>
      have hdiv : (m + 1) / 10 ≤ f := by
        have : (m + 1) / 10 < m + 1 := Nat.div_lt_self (Nat.succ_pos m) (by norm_num)
        omega
      show digitsToNat (natReprAux f ((m + 1) / 10) ++ [digitChar ((m + 1) % 10)]) = m + 1
      rw [digitsToNat_append, ih _ hdiv, digitVal_digitChar _ (Nat.mod_lt _ (by norm_num))]
      omega

theorem mem_natReprAux_isDigit (fuel : Nat) :
    ∀ n c, c ∈ natReprAux fuel n → c.isDigit = true := by
  induction fuel with
  | zero => intro n c hc; simp [natReprAux] at hc
  | succ f ih =>
    intro n c hc
    match n with
    | 0 => simp [natReprAux] at hc
    | m + 1 =>
      rw [show natReprAux (f + 1) (m + 1)
            = natReprAux f ((m + 1) / 10) ++ [digitChar ((m + 1) % 10)] from rfl] at hc
      rcases List.mem_append.mp hc with hl | hr
      · exact ih _ _ hl
      · rw [List.mem_singleton.mp hr]; exact digitChar_isDigit _

theorem mem_natRepr_isDigit (n : Nat) (c : Char) (hc : c ∈ natRepr n) : c.isDigit = true := by
  unfold natRepr at hc
  by_cases h : n = 0
  · simp [h] at hc; rw [hc]; decide
  · rw [if_neg h] at hc; exact mem_natReprAux_isDigit n n c hc

theorem natReprAux_ne_nil (fuel n : Nat) (h1 : n ≤ fuel) (h2 : n ≠ 0) :
    natReprAux fuel n ≠ [] := by
  match fuel, n with
  | 0, n => omega
  | f + 1, 0 => exact absurd rfl h2
  | f + 1, m + 1 =>
    show natReprAux f ((m + 1) / 10) ++ [digitChar ((m + 1) % 10)] ≠ []
    simp

theorem isNatLit_natRepr (n : Nat) : isNatLit (natRepr n) = true := by
  unfold isNatLit
  rw [Bool.and_eq_true, List.all_eq_true]
  constructor
  · by_cases h : n = 0
    · simp [natRepr, h]
    · simp only [natRepr, if_neg h]
      have := natReprAux_ne_nil n n le_rfl h
      simpa [List.isEmpty_iff] using this
  · intro c hc
    exact mem_natRepr_isDigit n c hc

theorem digitsToNat_natRepr (n : Nat) : digitsToNat (natRepr n) = n := by
  unfold natRepr
  by_cases h : n = 0
  · simp [h]; rfl
  · rw [if_neg h]; exact digitsToNat_natReprAux n n le_rfl

theorem not_digit_not_mem_natRepr (c : Char) (hc : c.isDigit = false) (n : Nat) :
    c ∉ natRepr n := fun hm => by
  rw [mem_natRepr_isDigit n c hm] at hc
  exact Bool.noConfusion hc

theorem ipPrefixFor_natRepr (p : Nat) (h : p ≤ 128) : ipPrefixFor (natRepr p) = some p := by
  unfold ipPrefixFor
  rw [isNatLit_natRepr, if_pos rfl, digitsToNat_natRepr, if_pos h]

theorem isNatLit_eq_false_of_netmaskBits (m : List Char) (k : Nat)
    (h : netmaskBits m = some k) : isNatLit m = false := by
  by_contra hn
  rw [Bool.not_eq_false, isNatLit, Bool.and_eq_true, List.all_eq_true] at hn
  have hdot : '.' ∉ m := fun hm => by
    have := hn.2 _ hm
    simp at this
  rw [netmaskBits, splitOnChar_not_mem _ _ hdot] at h
  exact Option.noConfusion h

theorem ipPrefixFor_of_netmaskBits (m : List Char) (k : Nat)
    (h : netmaskBits m = some k) : ipPrefixFor m = some k := by
  rw [ipPrefixFor, isNatLit_eq_false_of_netmaskBits m k h]
  simpa using h

theorem parseIp_slash (a rest : List Char) (h : '/' ∉ a) (hr : '/' ∉ rest) :
    parseIp (a ++ '/' :: rest) = (ipPrefixFor rest).map (fun p => ⟨a, some p⟩) := by
  rw [parseIp, splitOnChar_append _ _ _ h, splitOnChar_not_mem _ _ hr]
  rfl

theorem getF_map_replace_self (fs : List (String × JVal)) (k : String) (v : JVal)
    (h : ∃ p ∈ fs, p.1 = k) :
    getF (fs.map (fun p => if p.1 = k then (k, v) else p)) k = some v := by
  induction fs with
  | nil => simp at h
  | cons p rest ih =>
    by_cases hp : p.1 = k
    · simp only [List.map_cons]
      rw [if_pos hp]
      simp [getF]
    · simp only [List.map_cons]
      rw [if_neg hp]
      simp only [getF, if_neg hp]
      apply ih
      rcases h with ⟨q, hq, hk⟩
      rcases List.mem_cons.mp hq with he | hm
      · exact absurd (he ▸ hk) hp
      · exact ⟨q, hm, hk⟩

theorem getF_map_replace_ne (fs : List (String × JVal)) (k k' : String) (v : JVal)
    (h : k' ≠ k) :
    getF (fs.map (fun p => if p.1 = k then (k, v) else p)) k' = getF fs k' := by
  induction fs with
  | nil => rfl
  | cons p rest ih =>
    by_cases hp : p.1 = k
    · simp only [List.map_cons]
      rw [if_pos hp]
      simp only [getF, if_neg (fun he : k = k' => h he.symm),
        if_neg (fun he : p.1 = k' => h ((hp ▸ he).symm))]
      exact ih
    · simp only [List.map_cons]
      rw [if_neg hp]
      simp only [getF]
      by_cases hk' : p.1 = k' <;> simp [hk', ih]

theorem getF_append_single_self (fs : List (String × JVal)) (k : String) (v : JVal)
    (h : ∀ p ∈ fs, p.1 ≠ k) : getF (fs ++ [(k, v)]) k = some v := by
  induction fs with
  | nil => simp [getF]
  | cons p rest ih =>
    have hp : p.1 ≠ k := h p (List.mem_cons_self p rest)
    simp only [List.cons_append, getF, if_neg hp]
    exact ih (fun q hq => h q (List.mem_cons_of_mem p hq))

theorem getF_append_single_ne (fs : List (String × JVal)) (k k' : String) (v : JVal)
    (h : k' ≠ k) : getF (fs ++ [(k, v)]) k' = getF fs k' := by
  induction fs with
  | nil =>
    simp only [List.nil_append, getF]
    rw [if_neg (fun he : k = k' => h he.symm)]
  | cons p rest ih =>
    simp only [List.cons_append, getF]
    by_cases hk' : p.1 = k' <;> simp [hk', ih]

theorem getF_setField_self (fs : List (String × JVal)) (k : String) (v : JVal) :
    getF (setField fs k v) k = some v := by
  unfold setField
  by_cases h : fs.any (fun p => p.1 = k) = true
  · rw [if_pos h]
    apply getF_map_replace_self
    simpa using h
  · rw [if_neg h]
    apply getF_append_single_self
    simp only [List.any_eq_true, decide_eq_true_eq, not_exists, not_and] at h
    exact h

theorem getF_setField_ne (fs : List (String × JVal)) (k k' : String) (v : JVal)
    (h : k' ≠ k) : getF (setField fs k v) k' = getF fs k' := by
  unfold setField
  by_cases ha : fs.any (fun p => p.1 = k) = true
  · rw [if_pos ha]
    exact getF_map_replace_ne fs k k' v h
  · rw [if_neg ha]
    exact getF_append_single_ne fs k k' v h

/-! ### Claims -/

/-- C7: round-trip law of the address codec — for every address and every
integer prefix in the valid range, `format (parse (format {address,
prefix}))` equals `format {address, prefix}`; a well-formed string in
integer-prefix notation is reproduced exactly by format after parse; and
netmask notation round-trips to the equivalent prefix-integer form. -/
theorem ip_codec_round_trip :
    (∀ a p, '/' ∉ a → p ≤ 128 →
      (parseIp (formatIp ⟨a, some p⟩)).map formatIp = some (formatIp ⟨a, some p⟩)) ∧
    (∀ a p, '/' ∉ a → p ≤ 128 →
      (parseIp (a ++ '/' :: natRepr p)).map formatIp = some (a ++ '/' :: natRepr p)) ∧
    (∀ a m k, '/' ∉ a → '/' ∉ m → netmaskBits m = some k →
      (parseIp (a ++ '/' :: m)).map formatIp = some (a ++ '/' :: natRepr k)) := by
  have key : ∀ a p, '/' ∉ a → p ≤ 128 →
      (parseIp (a ++ '/' :: natRepr p)).map formatIp = some (a ++ '/' :: natRepr p) := by
    intro a p ha hp
    have hnr : '/' ∉ natRepr p := not_digit_not_mem_natRepr '/' (by decide) p
    rw [parseIp_slash a _ ha hnr, ipPrefixFor_natRepr p hp]
    rfl
  refine ⟨fun a p ha hp => key a p ha hp, key, ?_⟩
  intro a m k ha hm hk
  rw [parseIp_slash a m ha hm, ipPrefixFor_of_netmaskBits m k hk]
  rfl

/-- Witness for C7 at the concrete inputs of spec §8. -/
theorem ip_codec_round_trip_witness :
    ('/' ∉ ("192.168.1.10".data)) ∧ (24 : Nat) ≤ 128 ∧
    (parseIp (formatIp ⟨"192.168.1.10".data, some 24⟩)).map formatIp
      = some (formatIp ⟨"192.168.1.10".data, some 24⟩) ∧
    netmaskBits ("255.255.255.0".data) = some 24 ∧
    (parseIp (("10.0.0.0".data) ++ '/' :: ("255.255.255.0".data))).map formatIp
      = some (("10.0.0.0".data) ++ '/' :: natRepr 24) :=
  ⟨by decide, by decide,
   ip_codec_round_trip.1 ("192.168.1.10".data) 24 (by decide) (by decide),
   by decide,
   ip_codec_round_trip.2.2 ("10.0.0.0".data) ("255.255.255.0".data) 24
     (by decide) (by decide) (by decide)⟩

/-- C8: a non-contiguous dotted netmask is rejected loudly by the codec —
`ipPrefixFor` and the whole parse fail with `none`, never returning a
truncated or best-guess prefix such as 8 or 16. -/
theorem non_contiguous_netmask_rejected :
    ipPrefixFor ("255.0.255.0".data) = none ∧
    parseIp ("10.0.0.0/255.0.255.0".data) = none := by
  constructor <;> rfl

/-- C4: the classifier is total (by construction, as a Lean function) and
first-match-wins in the order wireless, bond, vlan, loopback interface,
ethernet default: a record with a wireless field is WIRELESS whatever
other marker fields it carries; a record without marker fields and with
iface `"lo"` is LOOPBACK; the same with iface `"eth0"` is ETHERNET. -/
theorem connectionType_priority :
    (∀ conn ws, getF conn "wireless" = some (JVal.obj ws) →
      connectionType conn = ConnectionTypeT.wifi) ∧
    (∀ conn, getF conn "wireless" = none → getF conn "bond" = none →
      getF conn "vlan" = none → getF conn "iface" = some (JVal.str ("lo".data)) →
      connectionType conn = ConnectionTypeT.loopback) ∧
    (∀ conn, getF conn "wireless" = none → getF conn "bond" = none →
      getF conn "vlan" = none → getF conn "iface" = some (JVal.str ("eth0".data)) →
      connectionType conn = ConnectionTypeT.ethernet) := by
  refine ⟨?_, ?_, ?_⟩
  · intro conn ws h
    simp [connectionType, jGet, h, jTruthy]
  · intro conn h1 h2 h3 h4
    simp [connectionType, jGet, h1, h2, h3, h4, jTruthy, isStr]
  · intro conn h1 h2 h3 h4
    simp [connectionType, jGet, h1, h2, h3, h4, jTruthy, isStr]

/-- Witness for C4: a record carrying both wireless and bond markers is
WIRELESS; iface-only records classify by interface name. -/
theorem connectionType_priority_witness :
    getF [("wireless", JVal.obj []), ("bond", JVal.obj [])] "wireless" = some (JVal.obj []) ∧
    connectionType [("wireless", JVal.obj []), ("bond", JVal.obj [])] = ConnectionTypeT.wifi ∧
    connectionType [("iface", JVal.str ("lo".data))] = ConnectionTypeT.loopback ∧
    connectionType [("iface", JVal.str ("eth0".data))] = ConnectionTypeT.ethernet :=
  ⟨rfl,
   connectionType_priority.1 [("wireless", JVal.obj []), ("bond", JVal.obj [])] [] rfl,
   connectionType_priority.2.1 [("iface", JVal.str ("lo".data))] rfl rfl rfl rfl,
   connectionType_priority.2.2 [("iface", JVal.str ("eth0".data))] rfl rfl rfl rfl⟩

/-- The end-to-end example wire connection of spec §8. -/
def wireEth0 : List (String × JVal) :=
  [("id", .str ("eth0".data)),
   ("addresses", .arr [.str ("192.168.1.10/24".data)]),
   ("nameservers", .arr [.str ("8.8.8.8".data)]),
   ("iface", .str ("eth0".data))]

/-- C3 counterexample: the wire-to-domain translation of `connections()`
does not attach any `type` field — on the example connection the claimed
`type: ETHERNET` is absent from the result. -/
theorem fromApiConnection_no_type_field :
    getF (fromApiConnection wireEth0) "type" = none := rfl

/-- C3 amended: translating the example wire connection yields id
`"eth0"`, structured addresses `[{address: "192.168.1.10", prefix: 24}]`,
nameservers `["8.8.8.8"]` and iface `"eth0"`, but no `type` field: the
classifier is a separate function that `connections()` never invokes,
and applied to the record it would yield ETHERNET. -/
theorem fromApiConnection_example :
    getF (fromApiConnection wireEth0) "id" = some (.str ("eth0".data)) ∧
    getF (fromApiConnection wireEth0) "addresses"
      = some (.arr [.obj [("address", .str ("192.168.1.10".data)), ("prefix", .num 24)]]) ∧
    getF (fromApiConnection wireEth0) "nameservers" = some (.arr [.str ("8.8.8.8".data)]) ∧
    getF (fromApiConnection wireEth0) "iface" = some (.str ("eth0".data)) ∧
    getF (fromApiConnection wireEth0) "type" = none ∧
    connectionType (fromApiConnection wireEth0) = ConnectionTypeT.ethernet :=
  ⟨rfl, rfl, rfl, rfl, rfl, rfl⟩

/-- A transport whose DELETE calls fail while every other call succeeds. -/
def clientDeleteFails : HttpClient :=
  ⟨fun m _ _ =>
    match m with
    | .delete => ⟨false, .undefined⟩
    | _ => ⟨true, .obj []⟩⟩

/-- A transport that rejects every call. -/
def clientAllFail : HttpClient := ⟨fun _ _ _ => ⟨false, .undefined⟩⟩

/-- A transport that accepts every call. -/
def clientAllOk : HttpClient := ⟨fun _ _ _ => ⟨true, .obj []⟩⟩

/-- A transport where only the apply path fails. -/
def clientApplyFails : HttpClient :=
  ⟨fun _ p _ => if p = applyPath then ⟨false, .undefined⟩ else ⟨true, .obj []⟩⟩

/-- C1 counterexample: on a transport whose delete call fails while the
apply call succeeds, `deleteConnection` still resolves to true — the
claimed "false when the delete call fails" does not hold. -/
theorem deleteConnection_ignores_delete_failure :
    (clientDeleteFails.respond .delete "/network/connections/eth0" .undefined).ok = false ∧
    (deleteConnection clientDeleteFails "eth0").val = true :=
  ⟨rfl, rfl⟩

/-- C1 amended: `deleteConnection` returns the ok-status of the apply
call alone; the delete call's own response is awaited but ignored, so the
result is true whenever apply succeeds, even if the delete failed. -/
theorem deleteConnection_val_eq_apply_ok (c : HttpClient) (id : String) :
    (deleteConnection c id).val = (c.respond .put applyPath (.obj [])).ok := rfl

/-- The transport trace of `addConnection` is its single POST, whatever
the response. -/
theorem addConnection_calls (c : HttpClient) (conn : List (String × JVal)) :
    (addConnection c conn).calls = [(.post, "/network/connections")] := by
  by_cases h : (c.respond .post "/network/connections" (.obj (toApiConnection conn))).ok
    <;> simp [addConnection, h]

/-- C2 counterexample: `addConnection` is a bare write — on a concrete
transport its trace contains no apply call at all. -/
theorem addConnection_no_apply_call :
    (Method.put, applyPath) ∉ (addConnection clientAllOk [("id", JVal.str ("eth0".data))]).calls := by
  decide

/-- C2 amended: `updateConnection`, `deleteConnection`, `connectTo` and
`addAndConnectTo` each issue the apply call directly after their write
call, on every transport; `addConnection` alone is a bare write whose
trace consists of the POST only (its commit happens via `connectTo`). -/
theorem mutators_write_then_apply (c : HttpClient) (conn options : List (String × JVal))
    (id : String) (ssid : List Char) :
    (updateConnection c conn).calls = [(.put, updatePath conn), (.put, applyPath)] ∧
    (deleteConnection c id).calls
      = [(.delete, "/network/connections/" ++ id), (.put, applyPath)] ∧
    (connectTo c conn).calls = [(.post, "/network/connections"), (.put, applyPath)] ∧
    (addAndConnectTo c ssid options).calls
      = [(.post, "/network/connections"), (.put, applyPath)] ∧
    (addConnection c conn).calls = [(.post, "/network/connections")] := by
  refine ⟨rfl, rfl, ?_, ?_, addConnection_calls c conn⟩
  · simp [connectTo, applyOp, addConnection_calls]
  · simp [addAndConnectTo, connectTo, applyOp, addConnection_calls]

/-- C5 counterexample: `devices()` soft-fails silently — on a failing
transport it returns the empty list but, unlike the other reads, logs
nothing, so "with the failure logged" does not hold for it. -/
theorem devices_fail_not_logged :
    (clientAllFail.respond .get "/network/devices" .undefined).ok = false ∧
    (devices clientAllFail).val = [] ∧
    (devices clientAllFail).logs = [] :=
  ⟨rfl, rfl, rfl⟩

/-- C5 amended: on a non-ok response every collection read soft-fails
instead of raising: `devices`, `connections` and `accessPoints` return the
empty list and `settings` the empty object; `connections`, `accessPoints`
and `settings` log the failure, while `devices` returns silently. -/
theorem reads_soft_fail (sff : JVal → JVal → JVal → JVal) (c : HttpClient)
    (hd : (c.respond .get "/network/devices" .undefined).ok = false)
    (hc : (c.respond .get "/network/connections" .undefined).ok = false)
    (hw : (c.respond .get "/network/wifi" .undefined).ok = false)
    (hs : (c.respond .get "/network/settings" .undefined).ok = false) :
    (devices c).val = [] ∧ (devices c).logs = [] ∧
    (connections c).val = [] ∧
    (connections c).logs = ["Failed to get list of connections"] ∧
    (accessPoints sff c).val = [] ∧
    (accessPoints sff c).logs = ["Failed to get list of APs"] ∧
    (settings c).val = JVal.obj [] ∧
    (settings c).logs = ["Failed to get settings"] := by
  refine ⟨?_, ?_, ?_, ?_, ?_, ?_, ?_, ?_⟩ <;>
    simp [devices, connections, accessPoints, settings, hd, hc, hw, hs]

/-- Witness for C5 on the all-failing transport. -/
theorem reads_soft_fail_witness :
    (clientAllFail.respond .get "/network/connections" .undefined).ok = false ∧
    (connections clientAllFail).val = [] ∧
    (connections clientAllFail).logs = ["Failed to get list of connections"] ∧
    (settings clientAllFail).val = JVal.obj [] :=
  ⟨rfl,
   (reads_soft_fail (fun _ _ _ => JVal.undefined) clientAllFail rfl rfl rfl rfl).2.2.1,
   (reads_soft_fail (fun _ _ _ => JVal.undefined) clientAllFail rfl rfl rfl rfl).2.2.2.1,
   (reads_soft_fail (fun _ _ _ => JVal.undefined) clientAllFail rfl rfl rfl rfl).2.2.2.2.2.2.1⟩

/-- C6: two-phase coupling of `updateConnection` — if the update PUT
succeeds but the apply call fails the result is false, and in general the
returned boolean equals the ok-status of the apply call alone, so the
caller cannot tell from it which phase failed. -/
theorem updateConnection_apply_coupling (c : HttpClient) (conn : List (String × JVal)) :
    ((c.respond .put (updatePath conn) (.obj (toApiConnection conn))).ok = true →
      (c.respond .put applyPath (.obj [])).ok = false →
      (updateConnection c conn).val = false) ∧
    (updateConnection c conn).val = (c.respond .put applyPath (.obj [])).ok :=
  ⟨fun _ h2 => h2, rfl⟩

/-- Witness for C6: a transport where the connection PUT succeeds and the
apply call fails makes `updateConnection` resolve to false. -/
theorem updateConnection_apply_coupling_witness :
    (clientApplyFails.respond .put (updatePath [("id", JVal.str ("eth0".data))])
      (.obj (toApiConnection [("id", JVal.str ("eth0".data))]))).ok = true ∧
    (clientApplyFails.respond .put applyPath (.obj [])).ok = false ∧
    (updateConnection clientApplyFails [("id", JVal.str ("eth0".data))]).val = false :=
  ⟨rfl, rfl,
   (updateConnection_apply_coupling clientApplyFails [("id", JVal.str ("eth0".data))]).1 rfl rfl⟩

/-- C9: the route decomposer touches only the destination field — every
other field of the record, known or unknown, reads the same after the
translation as before (in particular none is dropped), and `destination`
itself is replaced by the structured address object. -/
theorem route_decomposer_frame (route : List (String × JVal)) (d : List Char)
    (hd : getF route "destination" = some (JVal.str d)) :
    (∀ k, k ≠ "destination" → getF (mapRoute4 route) k = getF route k) ∧
    (∀ k, k ≠ "destination" → getF (mapRoute6 route) k = getF route k) ∧
    getF (mapRoute4 route) "destination" = some (route4Dest d) ∧
    getF (mapRoute6 route) "destination" = some (route6Dest d) := by
  have hds : routeDestStr route = d := by rw [routeDestStr, hd]
  refine ⟨?_, ?_, ?_, ?_⟩
  · intro k hk
    exact getF_setField_ne route "destination" k _ hk
  · intro k hk
    exact getF_setField_ne route "destination" k _ hk
  · rw [mapRoute4, hds]
    exact getF_setField_self route "destination" (route4Dest d)
  · rw [mapRoute6, hds]
    exact getF_setField_self route "destination" (route6Dest d)

/-- A concrete wire route record with passthrough and unknown fields. -/
def routeExample : List (String × JVal) :=
  [("destination", .str ("10.0.0.0/24".data)),
   ("nextHop", .str ("10.0.0.1".data)),
   ("metric", .num 100),
   ("unknownField", .bool true)]

/-- Witness for C9 on a concrete route record. -/
theorem route_decomposer_frame_witness :
    getF routeExample "destination" = some (JVal.str ("10.0.0.0/24".data)) ∧
    getF (mapRoute4 routeExample) "metric" = getF routeExample "metric" ∧
    getF (mapRoute6 routeExample) "nextHop" = getF routeExample "nextHop" ∧
    getF (mapRoute4 routeExample) "unknownField" = getF routeExample "unknownField" ∧
    getF (mapRoute4 routeExample) "destination" = some (route4Dest ("10.0.0.0/24".data)) :=
  ⟨rfl,
   (route_decomposer_frame routeExample ("10.0.0.0/24".data) rfl).1 "metric" (by decide),
   (route_decomposer_frame routeExample ("10.0.0.0/24".data) rfl).2.1 "nextHop" (by decide),
   (route_decomposer_frame routeExample ("10.0.0.0/24".data) rfl).1 "unknownField" (by decide),
   (route_decomposer_frame routeExample ("10.0.0.0/24".data) rfl).2.2.1⟩

/-- C10: on a destination with no `/`, the routes4 branch still attaches
a `prefix` field to the structured destination — `ipPrefixFor` is applied
to an absent netmask (`pfJ none`) — whereas the routes6 branch yields a
destination carrying only the address; the omission is implemented only
for routes6. -/
theorem routes4_routes6_no_slash (route : List (String × JVal)) (d : List Char)
    (hd : getF route "destination" = some (JVal.str d)) (hs : '/' ∉ d) :
    getF (mapRoute4 route) "destination"
      = some (JVal.obj [("address", JVal.str d), ("prefix", pfJ none)]) ∧
    getF (mapRoute6 route) "destination" = some (JVal.obj [("address", JVal.str d)]) := by
  have hds : routeDestStr route = d := by rw [routeDestStr, hd]
  have hsplit : splitOnChar '/' d = [d] := splitOnChar_not_mem _ _ hs
  have h4 : route4Dest d = JVal.obj [("address", JVal.str d), ("prefix", pfJ none)] := by
    rw [route4Dest, hsplit]
    rfl
  have h6 : route6Dest d = JVal.obj [("address", JVal.str d)] := by
    rw [route6Dest, hsplit]
    rfl
  constructor
  · rw [mapRoute4, hds, h4]
    exact getF_setField_self route "destination" _
  · rw [mapRoute6, hds, h6]
    exact getF_setField_self route "destination" _

/-- A concrete wire route whose destination carries no netmask part. -/
def route6Example : List (String × JVal) :=
  [("destination", .str ("fd00::1".data)), ("metric", .num 50)]

/-- Witness for C10 on a concrete slash-free route record. -/
theorem routes4_routes6_no_slash_witness :
    getF route6Example "destination" = some (JVal.str ("fd00::1".data)) ∧
    ('/' ∉ ("fd00::1".data)) ∧
    getF (mapRoute4 route6Example) "destination"
      = some (JVal.obj [("address", JVal.str ("fd00::1".data)), ("prefix", pfJ none)]) ∧
    getF (mapRoute6 route6Example) "destination"
      = some (JVal.obj [("address", JVal.str ("fd00::1".data))]) :=
  ⟨rfl, by decide,
   (routes4_routes6_no_slash route6Example ("fd00::1".data) rfl (by decide)).1,
   (routes4_routes6_no_slash route6Example ("fd00::1".data) rfl (by decide)).2⟩

end Agama
